import Mathlib

/-!
Shallow embedding of `src/fetch-first-dui-data.py`.

The program drives a remote job service:
`main` (lines 158-176) loops over state records; for each, it calls
`post_query_and_download` (lines 45-155), which POSTs a job query,
handles the 449 SSO challenge by following the returned URI once and
retrying the POST once, submits the embedded ProgressForm once when
present, polls the rendered DOM for a qualifying xlsx anchor, then
GETs the normalized link and on status 200 writes the file.

Network responses and the rendered DOM are external; they are modelled
by an oracle structure `World` supplying the response each call site
receives and the anchor set the rendered page exhibits during the
polling window.  The function returns the Python return value together
with the ordered trace of observable effects (HTTP calls, file write,
log of a failed download, sleep).  File writes are atomic in the model,
matching the single `fh.write(bodybytes)` of line 150 which writes the
already fully received body.
-/

namespace NhtsaFirst

/-- Module constant `SAS_URL` (line 22). -/
def SAS_URL : String := "https://cdan.dot.gov/SASJobExecution/?sso_guest=true"

/-- Module constant `QUERY_URL` (line 23). -/
def QUERY_URL : String := "https://cdan.dot.gov/query"

/-- Module constant `PROGRAM` (line 24). -/
def PROGRAM : String := "/Public/OTRA/Apps/FIRST/FIRST"

/-- Module constant `APPHOST` (line 25). -/
def APPHOST : String := "cdan.dot.gov"

/-- Module constant `BASE` (line 26). -/
def BASE : String := "https://cdan.dot.gov"

/-- Module constant `OUTDIR` (line 21): the `scraped` directory. -/
def OUTDIR : String := "scraped"

/-- Python truthiness of an optional string: `None` and `""` are falsy. -/
def pyTruthy : Option String → Bool
  | none => false
  | some s => !(s == "")

/-- Python `a or b` on optional strings: `a` if truthy, else `b`. -/
def pyOr (a b : Option String) : Option String :=
  if pyTruthy a then a else b

/-- Python `s.startswith(pre)`, computed over the character sequence. -/
def pyStartsWith (s pre : String) : Bool :=
  pre.data.isPrefixOf s.data

/-- Python `s.endswith(suf)`, computed over the character sequence. -/
def pyEndsWith (s suf : String) : Bool :=
  suf.data.reverse.isPrefixOf s.data.reverse

/-- Substring containment over character lists. -/
def listContainsSub (sub : List Char) : List Char → Bool
  | [] => sub.isEmpty
  | c :: rest => sub.isPrefixOf (c :: rest) || listContainsSub sub rest

/-- Python `sub in s` (the CSS `*=` attribute match), computed over the
character sequence. -/
def pyContains (s sub : String) : Bool :=
  listContainsSub sub.data s.data

/-- Fuel-indexed substring replacement over character lists; the fuel
is the length of the scanned list, which bounds the number of steps. -/
def replaceFuel (pat rep : List Char) : Nat → List Char → List Char
  | 0, l => l
  | _ + 1, [] => []
  | fuel + 1, c :: rest =>
      if pat ≠ [] && pat.isPrefixOf (c :: rest) then
        rep ++ replaceFuel pat rep fuel ((c :: rest).drop pat.length)
      else c :: replaceFuel pat rep fuel rest

/-- Python `s.replace(pat, rep)` for a non-empty pattern: every
non-overlapping occurrence is replaced, scanning left to right.  (The
program only calls it with the one-character pattern `/`.) -/
def pyReplace (s pat rep : String) : String :=
  ⟨replaceFuel pat.data rep.data s.data.length s.data⟩

/-- The view `resp.json()` gives of a response body (lines 76-77):
whether it parses as a JSON object, and the values of its `uri` and
`URI` fields if present. -/
structure JsonView where
  ok : Bool
  uriLower : Option String
  uriUpper : Option String
  deriving Repr, DecidableEq

/-- One `input`/`textarea` element of a form: its `name` attribute and
its `value` attribute (line 99-103); a missing `value` is read as `""`. -/
structure InputElem where
  name : Option String
  value : Option String
  deriving Repr, DecidableEq

/-- The ProgressForm found by name or id (line 93): its `action`
attribute and its input/textarea elements in document order. -/
structure FormData where
  action : Option String
  elems : List InputElem
  deriving Repr, DecidableEq

/-- An anchor element of the rendered page with its `download` and
`href` attributes (lines 123-128). -/
structure Anchor where
  download : Option String
  href : Option String
  deriving Repr, DecidableEq

/-- The views the program takes of one response body: the JSON view
used on a 449 (lines 76-77), the ProgressForm lookup on the parsed
HTML (line 93), and the anchors the rendered page exhibits in the DOM
during the polling window (lines 112-130, abstracting script
execution inside the rendering capability). -/
structure Body where
  json : JsonView
  progressForm : Option FormData
  anchors : List Anchor
  deriving Repr, DecidableEq

/-- A network response: status and body. -/
structure Response where
  status : Nat
  body : Body
  deriving Repr, DecidableEq

/-- Oracle for one `post_query_and_download` call: the response each
network call site receives should it run.  `submitResp` answers the
initial POST (line 67), `retryResp` the retry POST (line 84),
`formResp` the ProgressForm POST (line 106), `artifactStatus` the
status of the final GET (lines 145-146). -/
structure World where
  submitResp : Response
  retryResp : Response
  formResp : Response
  artifactStatus : Nat
  deriving Repr, DecidableEq

/-- Observable effects, tagged by call site.  `jobPost` is the job
submission POST to `SAS_URL` (lines 67 and 84), `authGet` the SSO
re-authentication GET (line 83), `formPost` the ProgressForm POST
(line 106), `artifactGet` the final download GET (line 145),
`fileWrite` the output write (lines 149-150), `logDownloadFailed` the
failure print of line 154, `processing`/`errorCaught`/`sleepSec` the
per-target lines of `main` (lines 170-175).  POST payloads are carried
as the field maps the form encoding transmits. -/
inductive Event where
  | jobPost (url : String) (fields : List (String × String))
  | authGet (url : String)
  | formPost (url : String) (fields : List (String × String))
  | artifactGet (url : String)
  | fileWrite (path : String)
  | logDownloadFailed (status : Nat)
  | processing (sid name : String)
  | errorCaught (name msg : String)
  | sleepSec (n : Nat)
  deriving Repr, DecidableEq

/-- The SAS query string built for one state id (lines 46-51). -/
def sas_query (sid : String) : String :=
  "&topic_num=26&metric_num=33&metrictype_num=37" ++
  "&CrashYear=2010,2011,2012,2013,2014,2015,2016,2017,2018,2019,2020,2021,2022,2023," ++
  "&State=" ++ sid ++ "&A_PTYPE=1&DRIMPAIR_A=9&TableRows=YEAR&TableCols=MONTH" ++
  "&ReleaseDate=Version 9.2.1, released Nov 13, 2025&ReportType=1&Criteria=Years: 2010-2023"

/-- The `data` dict of the job POST (lines 52-56). -/
def queryData (sid : String) : List (String × String) :=
  [("SASQueryString", sas_query sid), ("_program", PROGRAM), ("_apphostname", APPHOST)]

/-- The value `uri = j.get("uri") or j.get("URI") or j.get("uri")` guarded by the
`try` around `resp.json()` (lines 75-79): `none` when parsing fails. -/
def challengeUri (j : JsonView) : Option String :=
  if j.ok then pyOr (pyOr j.uriLower j.uriUpper) j.uriLower else none

/-- The address `auth_url = uri if uri.startswith("http") else BASE + uri` (line 81). -/
def authUrl (uri : String) : String :=
  if pyStartsWith uri "http" then uri else BASE ++ uri

/-- The 449 handling of lines 74-88: on a challenge status with a
truthy follow-up uri, GET the resolved auth address and re-issue the
job POST once, continuing with the retry response; otherwise continue
with the response in hand. -/
def challengePhase (w : World) (sid : String) : Response × List Event :=
  if w.submitResp.status == 449 then
    let uri := challengeUri w.submitResp.body.json
    if pyTruthy uri then
      (w.retryResp,
        [Event.authGet (authUrl (uri.getD "")), Event.jobPost SAS_URL (queryData sid)])
    else (w.submitResp, [])
  else (w.submitResp, [])

/-- Python dict assignment `d[k] = v`: replace in place if the key is
present, else append. -/
def dictInsert (d : List (String × String)) (k v : String) : List (String × String) :=
  if d.any (fun p => p.1 == k) then
    d.map (fun p => if p.1 == k then (k, v) else p)
  else d ++ [(k, v)]

/-- One step of the `inputs` loop of lines 99-103: `if not namei:
continue` skips an element whose `name` attribute is missing or empty
(Python falsiness), otherwise its value (default `""`) is assigned. -/
def inputStep (d : List (String × String)) (inp : InputElem) : List (String × String) :=
  match inp.name with
  | none => d
  | some n => if n == "" then d else dictInsert d n (inp.value.getD "")

/-- The `inputs` dict built from the form elements (lines 98-103). -/
def extractInputs (elems : List InputElem) : List (String × String) :=
  elems.foldl inputStep []

/-- The target `action = form.get("action") or SAS_URL` then base-resolution of a
leading `/` (lines 95-97). -/
def resolveAction (f : FormData) : String :=
  let action :=
    match f.action with
    | none => SAS_URL
    | some a => if a == "" then SAS_URL else a
  if pyStartsWith action "/" then BASE ++ action else action

/-- The ProgressForm step of lines 92-110: when the parsed body holds
the form, POST its extracted fields to the resolved action exactly
once and continue with that response body as `page_html`; otherwise
the body passes through unchanged. -/
def formPhase (w : World) (r : Response) : Body × List Event :=
  match r.body.progressForm with
  | some f =>
      (w.formResp.body, [Event.formPost (resolveAction f) (extractInputs f.elems)])
  | none => (r.body, [])

/-- Whether an anchor matches the selector
`a[download$=".xlsx"], a[href$=".xlsx"], a[href*="/files/files/"]`
of lines 123 and 128. -/
def qualifies (a : Anchor) : Bool :=
  (match a.download with
   | some d => pyEndsWith d ".xlsx"
   | none => false) ||
  (match a.href with
   | some h => pyEndsWith h ".xlsx" || pyContains h "/files/files/"
   | none => false)

/-- The DOM poll of lines 121-130: the `href` attribute of the first
qualifying anchor of the rendered page, or `none` when no qualifying
anchor appears within the deadline (both the selector wait and the JS
fallback evaluate the same selector against the same DOM, so the model
computes it once over the page anchors). -/
def findLink (anchors : List Anchor) : Option String :=
  match anchors.find? qualifies with
  | some a => a.href
  | none => none

/-- Link normalization of lines 137-143. -/
def normalizeLink (link : String) : String :=
  if pyStartsWith link "/" then BASE ++ link
  else if pyStartsWith link "http" then link
  else BASE ++ "/" ++ link

/-- The final retrieval of lines 145-155: GET the normalized address;
on 200 write the body to `scraped/<name>-dui-data.xlsx` and succeed,
otherwise log the failed status and fail.  No retry either way. -/
def downloadPhase (w : World) (name link : String) : Bool × List Event :=
  let url := normalizeLink link
  if w.artifactStatus == 200 then
    (true, [Event.artifactGet url,
            Event.fileWrite (OUTDIR ++ "/" ++ name ++ "-dui-data.xlsx")])
  else
    (false, [Event.artifactGet url, Event.logDownloadFailed w.artifactStatus])

/-- Function `post_query_and_download` (lines 45-155): the Python return value
paired with the ordered effect trace.  `if not link: return False`
(lines 132-134) makes a missing or empty href a failure with no
further effect. -/
def post_query_and_download (w : World) (sid name : String) : Bool × List Event :=
  let d := queryData sid
  let rc := challengePhase w sid
  let fp := formPhase w rc.1
  let link := findLink fp.1.anchors
  if pyTruthy link then
    let dl := downloadPhase w name (link.getD "")
    (dl.1, Event.jobPost SAS_URL d :: (rc.2 ++ fp.2 ++ dl.2))
  else
    (false, Event.jobPost SAS_URL d :: (rc.2 ++ fp.2))

/-- One state record of `state-list.json` as `main` reads it
(lines 167-169): `s.get("Id")` and `s.get("StateName", "unknown")`. -/
structure StateRec where
  id : Option String
  stateName : Option String
  deriving Repr, DecidableEq

/-- Rendering of a possibly-missing id inside the query f-string:
Python prints `None` for a missing value. -/
def pyShowOpt : Option String → String
  | some s => s
  | none => "None"

/-- The name `s.get("StateName", "unknown").replace("/", "-")` (line 169). -/
def targetName (s : StateRec) : String :=
  pyReplace (s.stateName.getD "unknown") "/" "-"

/-- One target of the `main` loop: its record, the network oracle for
its `post_query_and_download` call, and — since every network call of
the Python client can raise — an oracle for an exception escaping that
call (`exn` is the message, `exnEvents` the effects already performed
when it was raised). -/
structure TargetRun where
  record : StateRec
  world : World
  exn : Option String
  exnEvents : List Event
  deriving Repr, DecidableEq

/-- One iteration of the `main` loop (lines 167-175): announce the
target, run `post_query_and_download` under `try`, catch any
exception, and sleep the fixed pacing delay unconditionally. -/
def runOne (t : TargetRun) : List Event :=
  let sid := pyShowOpt t.record.id
  let name := targetName t.record
  Event.processing sid name ::
    (match t.exn with
     | some msg => t.exnEvents ++ [Event.errorCaught name msg]
     | none => (post_query_and_download t.world sid name).2) ++
    [Event.sleepSec 1]

/-- The `main` loop over the configured targets (lines 167-175). -/
def mainLoop : List TargetRun → List Event
  | [] => []
  | t :: rest => runOne t ++ mainLoop rest

/-- Recognizer for job submission POST events. -/
def isJobPost : Event → Bool
  | Event.jobPost _ _ => true
  | _ => false

/-- Recognizer for SSO re-authentication GET events. -/
def isAuthGet : Event → Bool
  | Event.authGet _ => true
  | _ => false

/-- Recognizer for ProgressForm POST events. -/
def isFormPost : Event → Bool
  | Event.formPost _ _ => true
  | _ => false

/-- Recognizer for artifact download GET events. -/
def isArtifactGet : Event → Bool
  | Event.artifactGet _ => true
  | _ => false

/-- Recognizer for file write events. -/
def isFileWrite : Event → Bool
  | Event.fileWrite _ => true
  | _ => false

/-- The (name, value) pairs of the form elements with a truthy (that
is, present and non-empty) `name` attribute, in document order, values
defaulted to `""` — the content of the `inputs` dict when no two such
elements share a name. -/
def namedPairs (elems : List InputElem) : List (String × String) :=
  elems.filterMap (fun i =>
    match i.name with
    | none => none
    | some n => if n == "" then none else some (n, i.value.getD ""))

/-- A body that parses as JSON without any follow-up field, holds no
ProgressForm and renders with no anchors. -/
def emptyBody : Body :=
  { json := { ok := false, uriLower := none, uriUpper := none }
  , progressForm := none
  , anchors := [] }

/-- A body with no ProgressForm whose rendered page exhibits one
qualifying anchor. -/
def directBody : Body :=
  { json := { ok := false, uriLower := none, uriUpper := none }
  , progressForm := none
  , anchors := [{ download := none, href := some "/files/files/ca.xlsx" }] }

/-- A run in which the submission succeeds directly: no challenge, no
form, a qualifying anchor, artifact status 200. -/
def directWorld : World :=
  { submitResp := { status := 200, body := directBody }
  , retryResp := { status := 200, body := emptyBody }
  , formResp := { status := 200, body := emptyBody }
  , artifactStatus := 200 }

/-- A 449 body carrying a usable relative follow-up uri. -/
def usableChallengeBody : Body :=
  { json := { ok := true, uriLower := some "/auth/x", uriUpper := none }
  , progressForm := none
  , anchors := [] }

/-- A run in which the submission is challenged with a usable relative
follow-up uri and the retry succeeds directly. -/
def challengeWorld : World :=
  { submitResp := { status := 449, body := usableChallengeBody }
  , retryResp := { status := 200, body := directBody }
  , formResp := { status := 200, body := emptyBody }
  , artifactStatus := 200 }

/-- A 449 body that parses as JSON but carries no follow-up field,
while its rendered page itself exhibits a qualifying anchor. -/
def unusableChallengeBody : Body :=
  { json := { ok := true, uriLower := none, uriUpper := none }
  , progressForm := none
  , anchors := [{ download := none, href := some "/files/files/ca.xlsx" }] }

/-- A run in which the submission returns the challenge status without
a usable follow-up field. -/
def cexWorld : World :=
  { submitResp := { status := 449, body := unusableChallengeBody }
  , retryResp := { status := 200, body := emptyBody }
  , formResp := { status := 200, body := emptyBody }
  , artifactStatus := 200 }

/-- A ProgressForm with an absent action attribute and one named field. -/
def progressF : FormData :=
  { action := none, elems := [{ name := some "jobid", value := some "42" }] }

/-- A body holding `progressF` and rendering with no anchors. -/
def formBody : Body :=
  { json := { ok := false, uriLower := none, uriUpper := none }
  , progressForm := some progressF
  , anchors := [] }

/-- A run in which the submission body holds `progressF` and the form
submission response renders with a qualifying anchor. -/
def formWorld : World :=
  { submitResp := { status := 200, body := formBody }
  , retryResp := { status := 200, body := emptyBody }
  , formResp := { status := 200, body := directBody }
  , artifactStatus := 200 }

/-- A body with anchors none of which qualify. -/
def noLinkBody : Body :=
  { json := { ok := false, uriLower := none, uriUpper := none }
  , progressForm := none
  , anchors := [{ download := none, href := some "/other/page.html" }] }

/-- A run whose rendered page has anchors but none qualifying. -/
def noLinkWorld : World :=
  { submitResp := { status := 200, body := noLinkBody }
  , retryResp := { status := 200, body := emptyBody }
  , formResp := { status := 200, body := emptyBody }
  , artifactStatus := 200 }

/-- A target whose record is California and whose run succeeds
directly. -/
def caTarget : TargetRun :=
  { record := { id := some "06", stateName := some "California" }
  , world := directWorld
  , exn := none
  , exnEvents := [] }

/-- A target whose run raises a network exception after one job POST. -/
def errTarget : TargetRun :=
  { record := { id := some "01", stateName := some "Alabama" }
  , world := directWorld
  , exn := some "net::ERR_TIMED_OUT"
  , exnEvents := [Event.jobPost SAS_URL (queryData "01")] }

lemma challengePhase_countP (w : World) (sid : String) (p : Event → Bool)
    (hA : ∀ u, p (Event.authGet u) = false)
    (hJ : ∀ u f, p (Event.jobPost u f) = false) :
    ((challengePhase w sid).2).countP p = 0 := by
  simp only [challengePhase]
  split
  · split
    · simp [List.countP_cons, hA, hJ]
    · simp
  · simp

lemma formPhase_countP (w : World) (r : Response) (p : Event → Bool)
    (hF : ∀ u f, p (Event.formPost u f) = false) :
    ((formPhase w r).2).countP p = 0 := by
  unfold formPhase
  split <;> simp [List.countP_cons, hF]

lemma downloadPhase_countP (w : World) (name link : String) (p : Event → Bool)
    (hG : ∀ u, p (Event.artifactGet u) = false)
    (hW : ∀ s, p (Event.fileWrite s) = false)
    (hL : ∀ n, p (Event.logDownloadFailed n) = false) :
    ((downloadPhase w name link).2).countP p = 0 := by
  simp only [downloadPhase]
  split <;> simp [List.countP_cons, hG, hW, hL]

lemma formPhase_countP_formPost (w : World) (r : Response) :
    ((formPhase w r).2).countP isFormPost =
      if r.body.progressForm.isSome then 1 else 0 := by
  unfold formPhase
  split <;> simp_all [List.countP_cons, isFormPost]

lemma challengePhase_no_formPost (w : World) (sid : String) :
    ((challengePhase w sid).2).countP isFormPost = 0 :=
  challengePhase_countP w sid isFormPost (fun _ => rfl) (fun _ _ => rfl)

lemma challengePhase_no_artifactGet (w : World) (sid : String) :
    ((challengePhase w sid).2).countP isArtifactGet = 0 :=
  challengePhase_countP w sid isArtifactGet (fun _ => rfl) (fun _ _ => rfl)

lemma challengePhase_no_fileWrite (w : World) (sid : String) :
    ((challengePhase w sid).2).countP isFileWrite = 0 :=
  challengePhase_countP w sid isFileWrite (fun _ => rfl) (fun _ _ => rfl)

lemma formPhase_no_authGet (w : World) (r : Response) :
    ((formPhase w r).2).countP isAuthGet = 0 :=
  formPhase_countP w r isAuthGet (fun _ _ => rfl)

lemma formPhase_no_jobPost (w : World) (r : Response) :
    ((formPhase w r).2).countP isJobPost = 0 :=
  formPhase_countP w r isJobPost (fun _ _ => rfl)

lemma formPhase_no_artifactGet (w : World) (r : Response) :
    ((formPhase w r).2).countP isArtifactGet = 0 :=
  formPhase_countP w r isArtifactGet (fun _ _ => rfl)

lemma formPhase_no_fileWrite (w : World) (r : Response) :
    ((formPhase w r).2).countP isFileWrite = 0 :=
  formPhase_countP w r isFileWrite (fun _ _ => rfl)

lemma downloadPhase_no_authGet (w : World) (name link : String) :
    ((downloadPhase w name link).2).countP isAuthGet = 0 :=
  downloadPhase_countP w name link isAuthGet (fun _ => rfl) (fun _ => rfl) (fun _ => rfl)

lemma downloadPhase_no_jobPost (w : World) (name link : String) :
    ((downloadPhase w name link).2).countP isJobPost = 0 :=
  downloadPhase_countP w name link isJobPost (fun _ => rfl) (fun _ => rfl) (fun _ => rfl)

lemma downloadPhase_no_formPost (w : World) (name link : String) :
    ((downloadPhase w name link).2).countP isFormPost = 0 :=
  downloadPhase_countP w name link isFormPost (fun _ => rfl) (fun _ => rfl) (fun _ => rfl)

lemma downloadPhase_countP_artifactGet (w : World) (name link : String) :
    ((downloadPhase w name link).2).countP isArtifactGet = 1 := by
  simp only [downloadPhase]
  split <;> simp [List.countP_cons, isArtifactGet]

lemma downloadPhase_countP_fileWrite (w : World) (name link : String) :
    ((downloadPhase w name link).2).countP isFileWrite =
      if w.artifactStatus == 200 then 1 else 0 := by
  simp only [downloadPhase]
  split <;> simp_all [List.countP_cons, isFileWrite]

lemma downloadPhase_fst (w : World) (name link : String) :
    (downloadPhase w name link).1 = (w.artifactStatus == 200) := by
  simp only [downloadPhase]
  split <;> simp_all

lemma downloadPhase_mem_artifactGet (w : World) (name link : String) :
    Event.artifactGet (normalizeLink link) ∈ (downloadPhase w name link).2 := by
  simp only [downloadPhase]
  split <;> simp

lemma downloadPhase_mem_fileWrite (w : World) (name link : String)
    (h : w.artifactStatus = 200) :
    Event.fileWrite (OUTDIR ++ "/" ++ name ++ "-dui-data.xlsx") ∈
      (downloadPhase w name link).2 := by
  simp [downloadPhase, h]

lemma downloadPhase_mem_log (w : World) (name link : String)
    (h : ¬ w.artifactStatus = 200) :
    Event.logDownloadFailed w.artifactStatus ∈ (downloadPhase w name link).2 := by
  simp [downloadPhase, h]

lemma post_query_events (w : World) (sid name : String) :
    (post_query_and_download w sid name).2 =
      Event.jobPost SAS_URL (queryData sid) ::
        ((challengePhase w sid).2 ++ (formPhase w (challengePhase w sid).1).2 ++
          (if pyTruthy (findLink (formPhase w (challengePhase w sid).1).1.anchors) then
            (downloadPhase w name
              ((findLink (formPhase w (challengePhase w sid).1).1.anchors).getD "")).2
          else [])) := by
  simp only [post_query_and_download]
  split <;> simp_all

lemma post_query_fst (w : World) (sid name : String) :
    (post_query_and_download w sid name).1 =
      if pyTruthy (findLink (formPhase w (challengePhase w sid).1).1.anchors) then
        (downloadPhase w name
          ((findLink (formPhase w (challengePhase w sid).1).1.anchors).getD "")).1
      else false := by
  simp only [post_query_and_download]
  split <;> simp_all

/-- C7: when the response body in hand after challenge handling
contains no ProgressForm, no form POST is issued and the body itself,
unchanged, is the page used for link resolution. -/
theorem no_form_passthrough (w : World) (sid name : String)
    (hf : (challengePhase w sid).1.body.progressForm = none) :
    (formPhase w (challengePhase w sid).1).1 = (challengePhase w sid).1.body ∧
    ((post_query_and_download w sid name).2).countP isFormPost = 0 := by
  have hfp : formPhase w (challengePhase w sid).1 = ((challengePhase w sid).1.body, []) := by
    unfold formPhase
    rw [hf]
  refine ⟨by rw [hfp], ?_⟩
  rw [post_query_events]
  by_cases hl : pyTruthy (findLink (challengePhase w sid).1.body.anchors) = true
  · simp [hfp, hl, List.countP_cons, List.countP_append, isFormPost,
      challengePhase_no_formPost, downloadPhase_no_formPost]
  · simp [hfp, hl, List.countP_cons, List.countP_append, isFormPost,
      challengePhase_no_formPost]

/-- C7 witness: the pass-through holds at the concrete `directWorld`,
whose submission body holds no ProgressForm. -/
theorem no_form_passthrough_witness :
    (formPhase directWorld (challengePhase directWorld "06").1).1 =
      (challengePhase directWorld "06").1.body ∧
    ((post_query_and_download directWorld "06" "California").2).countP isFormPost = 0 :=
  no_form_passthrough directWorld "06" "California" rfl

/-- C10: a ProgressForm whose action attribute is absent or empty is
submitted to the job-execution endpoint `SAS_URL` rather than being
skipped. -/
theorem empty_action_posts_to_job_endpoint (w : World) (sid name : String) (f : FormData)
    (hf : (challengePhase w sid).1.body.progressForm = some f)
    (ha : f.action = none ∨ f.action = some "") :
    resolveAction f = SAS_URL ∧
    Event.formPost SAS_URL (extractInputs f.elems) ∈
      (post_query_and_download w sid name).2 := by
  have hs : pyStartsWith SAS_URL "/" = false := by decide
  have hra : resolveAction f = SAS_URL := by
    rcases ha with h | h <;> simp [resolveAction, h, hs]
  have hfp : formPhase w (challengePhase w sid).1 =
      (w.formResp.body, [Event.formPost (resolveAction f) (extractInputs f.elems)]) := by
    unfold formPhase
    rw [hf]
  refine ⟨hra, ?_⟩
  rw [post_query_events]
  by_cases hl : pyTruthy (findLink w.formResp.body.anchors) = true <;>
    simp [hfp, hra, hl, List.mem_cons, List.mem_append]

/-- C10 witness: at `formWorld` the form `progressF` has no action
attribute and its fields are POSTed to `SAS_URL`. -/
theorem empty_action_posts_to_job_endpoint_witness :
    resolveAction progressF = SAS_URL ∧
    Event.formPost SAS_URL (extractInputs progressF.elems) ∈
      (post_query_and_download formWorld "06" "California").2 :=
  empty_action_posts_to_job_endpoint formWorld "06" "California" progressF rfl (Or.inl rfl)

/-- C8: when no anchor of the page used for link resolution qualifies
within the polling window, the function returns failure and performs
no artifact GET and no file write. -/
theorem link_not_found_no_artifact (w : World) (sid name : String)
    (hq : ∀ a ∈ (formPhase w (challengePhase w sid).1).1.anchors, qualifies a = false) :
    (post_query_and_download w sid name).1 = false ∧
    ((post_query_and_download w sid name).2).countP isArtifactGet = 0 ∧
    ((post_query_and_download w sid name).2).countP isFileWrite = 0 := by
  have hfind : findLink (formPhase w (challengePhase w sid).1).1.anchors = none := by
    have h2 : (formPhase w (challengePhase w sid).1).1.anchors.find? qualifies = none :=
      List.find?_eq_none.mpr (fun x hx => by simp [hq x hx])
    simp [findLink, h2]
  refine ⟨?_, ?_, ?_⟩
  · rw [post_query_fst, hfind]
    simp [pyTruthy]
  · rw [post_query_events, hfind]
    simp [pyTruthy, List.countP_cons, List.countP_append, isArtifactGet,
      challengePhase_no_artifactGet, formPhase_no_artifactGet]
  · rw [post_query_events, hfind]
    simp [pyTruthy, List.countP_cons, List.countP_append, isFileWrite,
      challengePhase_no_fileWrite, formPhase_no_fileWrite]

/-- C8 witness: at `noLinkWorld` the only rendered anchor does not
qualify, so the run fails with no artifact GET and no file write. -/
theorem link_not_found_no_artifact_witness :
    (post_query_and_download noLinkWorld "06" "California").1 = false ∧
    ((post_query_and_download noLinkWorld "06" "California").2).countP isArtifactGet = 0 ∧
    ((post_query_and_download noLinkWorld "06" "California").2).countP isFileWrite = 0 :=
  link_not_found_no_artifact noLinkWorld "06" "California" (by decide)

/-- C6: a discovered reference starting with `/` is prefixed with the
base address, one starting with `http` is used unchanged, any other is
prefixed with the base address and `/`; and the artifact GET requests
exactly the normalized address. -/
theorem link_normalized (w : World) (sid name link : String)
    (hl : findLink (formPhase w (challengePhase w sid).1).1.anchors = some link)
    (hne : link ≠ "") :
    (pyStartsWith link "/" = true → normalizeLink link = BASE ++ link) ∧
    (pyStartsWith link "/" = false → pyStartsWith link "http" = true →
      normalizeLink link = link) ∧
    (pyStartsWith link "/" = false → pyStartsWith link "http" = false →
      normalizeLink link = BASE ++ "/" ++ link) ∧
    Event.artifactGet (normalizeLink link) ∈ (post_query_and_download w sid name).2 := by
  have ht : pyTruthy (some link) = true := by simp [pyTruthy, hne]
  refine ⟨?_, ?_, ?_, ?_⟩
  · intro h
    simp [normalizeLink, h]
  · intro h1 h2
    simp [normalizeLink, h1, h2]
  · intro h1 h2
    simp [normalizeLink, h1, h2]
  · rw [post_query_events, hl]
    simp [ht, List.mem_cons, List.mem_append, downloadPhase_mem_artifactGet]

/-- C6 witness: at `directWorld` the discovered reference is the
relative `/files/files/ca.xlsx` and the artifact GET requests its
base-prefixed form. -/
theorem link_normalized_witness :
    (pyStartsWith "/files/files/ca.xlsx" "/" = true →
      normalizeLink "/files/files/ca.xlsx" = BASE ++ "/files/files/ca.xlsx") ∧
    (pyStartsWith "/files/files/ca.xlsx" "/" = false →
      pyStartsWith "/files/files/ca.xlsx" "http" = true →
      normalizeLink "/files/files/ca.xlsx" = "/files/files/ca.xlsx") ∧
    (pyStartsWith "/files/files/ca.xlsx" "/" = false →
      pyStartsWith "/files/files/ca.xlsx" "http" = false →
      normalizeLink "/files/files/ca.xlsx" = BASE ++ "/" ++ "/files/files/ca.xlsx") ∧
    Event.artifactGet (normalizeLink "/files/files/ca.xlsx") ∈
      (post_query_and_download directWorld "06" "California").2 :=
  link_normalized directWorld "06" "California" "/files/files/ca.xlsx" rfl (by decide)

/-- C1: on a challenge response with a usable follow-up reference, the
run performs exactly one re-authentication GET against the
base-resolved follow-up address and exactly one resubmission of the
original job request, and no further re-authentication or resubmission
ever occurs afterwards — whatever the resubmission returns, including
a second challenge status. -/
theorem challenge_retried_exactly_once (w : World) (sid name : String)
    (h449 : w.submitResp.status = 449)
    (husable : pyTruthy (challengeUri w.submitResp.body.json) = true) :
    ∃ rest : List Event,
      (post_query_and_download w sid name).2 =
        Event.jobPost SAS_URL (queryData sid) ::
          Event.authGet (authUrl ((challengeUri w.submitResp.body.json).getD "")) ::
          Event.jobPost SAS_URL (queryData sid) :: rest ∧
      rest.countP isAuthGet = 0 ∧ rest.countP isJobPost = 0 := by
  have hc : challengePhase w sid =
      (w.retryResp,
        [Event.authGet (authUrl ((challengeUri w.submitResp.body.json).getD "")),
         Event.jobPost SAS_URL (queryData sid)]) := by
    simp [challengePhase, h449, husable]
  refine ⟨(formPhase w w.retryResp).2 ++
      (if pyTruthy (findLink (formPhase w w.retryResp).1.anchors) then
        (downloadPhase w name ((findLink (formPhase w w.retryResp).1.anchors).getD "")).2
      else []), ?_, ?_, ?_⟩
  · rw [post_query_events, hc]
    simp
  · simp only [List.countP_append, formPhase_no_authGet, Nat.zero_add]
    split <;> simp [downloadPhase_no_authGet]
  · simp only [List.countP_append, formPhase_no_jobPost, Nat.zero_add]
    split <;> simp [downloadPhase_no_jobPost]

/-- C1 witness: at `challengeWorld` the challenge carries the usable
uri `/auth/x`; the trace shows exactly one re-authentication GET and
one resubmission. -/
theorem challenge_retried_exactly_once_witness :
    challengeWorld.submitResp.status = 449 ∧
    pyTruthy (challengeUri challengeWorld.submitResp.body.json) = true ∧
    ∃ rest : List Event,
      (post_query_and_download challengeWorld "06" "California").2 =
        Event.jobPost SAS_URL (queryData "06") ::
          Event.authGet (authUrl ((challengeUri challengeWorld.submitResp.body.json).getD "")) ::
          Event.jobPost SAS_URL (queryData "06") :: rest ∧
      rest.countP isAuthGet = 0 ∧ rest.countP isJobPost = 0 :=
  ⟨rfl, rfl, challenge_retried_exactly_once challengeWorld "06" "California" rfl rfl⟩

/-- C2 counterexample: at `cexWorld` the submission returns the
challenge status (449) with a body carrying no usable follow-up field;
no re-authentication happens, but acquisition does not fail with a
challenge-unresolvable classification — the challenge body falls
through to the normal flow, its rendered anchor is used, and the run
succeeds, writing the file. -/
theorem challenge_unusable_not_classified :
    cexWorld.submitResp.status = 449 ∧
    pyTruthy (challengeUri cexWorld.submitResp.body.json) = false ∧
    (post_query_and_download cexWorld "06" "California").1 = true ∧
    ((post_query_and_download cexWorld "06" "California").2).countP isFileWrite = 1 :=
  ⟨rfl, rfl, rfl, rfl⟩

/-- C2 amended: on a challenge response whose body is unparsable or
carries no usable follow-up field, no re-authentication GET and no
resubmission is performed; there is no challenge-unresolvable
classification — instead the run continues with the challenge body
through the normal form/link-resolution flow, behaving exactly as if
the submission had returned a non-challenge status with the same
body. -/
theorem challenge_unusable_no_retry (w : World) (sid name : String)
    (h449 : w.submitResp.status = 449)
    (hbad : pyTruthy (challengeUri w.submitResp.body.json) = false) :
    ((post_query_and_download w sid name).2).countP isAuthGet = 0 ∧
    ((post_query_and_download w sid name).2).countP isJobPost = 1 ∧
    post_query_and_download w sid name =
      post_query_and_download
        { w with submitResp := { status := 200, body := w.submitResp.body } } sid name := by
  have hc : challengePhase w sid = (w.submitResp, []) := by
    simp [challengePhase, h449, hbad]
  have hc2 : challengePhase
      { w with submitResp := { status := 200, body := w.submitResp.body } } sid =
      ({ status := 200, body := w.submitResp.body }, []) := by
    simp [challengePhase]
  refine ⟨?_, ?_, ?_⟩
  · rw [post_query_events, hc]
    simp only [List.nil_append, List.countP_cons, List.countP_append,
      formPhase_no_authGet]
    split <;> simp [isAuthGet, downloadPhase_no_authGet]
  · rw [post_query_events, hc]
    simp only [List.nil_append, List.countP_cons, List.countP_append,
      formPhase_no_jobPost]
    split <;> simp [isJobPost, downloadPhase_no_jobPost]
  · simp only [post_query_and_download, hc, hc2, formPhase, downloadPhase]

/-- C2 amended witness: at `cexWorld` no re-authentication GET occurs
and the job POST is issued exactly once. -/
theorem challenge_unusable_no_retry_witness :
    ((post_query_and_download cexWorld "06" "California").2).countP isAuthGet = 0 ∧
    ((post_query_and_download cexWorld "06" "California").2).countP isJobPost = 1 ∧
    post_query_and_download cexWorld "06" "California" =
      post_query_and_download
        { cexWorld with
          submitResp := { status := 200, body := cexWorld.submitResp.body } }
        "06" "California" :=
  challenge_unusable_no_retry cexWorld "06" "California" rfl rfl

/-- C4: once a result link is discovered, the final retrieval is
all-or-nothing: exactly one artifact GET is issued; on status 200 the
run succeeds with exactly one file write at the derived path, on any
other status it fails with no file write and the failed status carried
in the logged outcome; no retry occurs either way. -/
theorem artifact_all_or_nothing (w : World) (sid name link : String)
    (hl : findLink (formPhase w (challengePhase w sid).1).1.anchors = some link)
    (hne : link ≠ "") :
    (post_query_and_download w sid name).1 = (w.artifactStatus == 200) ∧
    ((post_query_and_download w sid name).2).countP isArtifactGet = 1 ∧
    ((post_query_and_download w sid name).2).countP isFileWrite =
      (if w.artifactStatus == 200 then 1 else 0) ∧
    (w.artifactStatus = 200 →
      Event.fileWrite (OUTDIR ++ "/" ++ name ++ "-dui-data.xlsx") ∈
        (post_query_and_download w sid name).2) ∧
    (¬ w.artifactStatus = 200 →
      Event.logDownloadFailed w.artifactStatus ∈ (post_query_and_download w sid name).2) := by
  have ht : pyTruthy (some link) = true := by simp [pyTruthy, hne]
  refine ⟨?_, ?_, ?_, ?_, ?_⟩
  · rw [post_query_fst, hl]
    simp [ht, downloadPhase_fst]
  · rw [post_query_events, hl]
    simp [ht, List.countP_cons, List.countP_append, isArtifactGet,
      challengePhase_no_artifactGet, formPhase_no_artifactGet,
      downloadPhase_countP_artifactGet]
  · rw [post_query_events, hl]
    simp [ht, List.countP_cons, List.countP_append, isFileWrite,
      challengePhase_no_fileWrite, formPhase_no_fileWrite, downloadPhase_countP_fileWrite]
  · intro h200
    rw [post_query_events, hl]
    simp [ht, List.mem_cons, List.mem_append,
      downloadPhase_mem_fileWrite w name link h200]
  · intro hfail
    rw [post_query_events, hl]
    simp [ht, List.mem_cons, List.mem_append, downloadPhase_mem_log w name link hfail]

/-- C4 witness: at `directWorld` the artifact GET succeeds with status
200 and exactly one file is written. -/
theorem artifact_all_or_nothing_witness :
    (post_query_and_download directWorld "06" "California").1 =
      (directWorld.artifactStatus == 200) ∧
    ((post_query_and_download directWorld "06" "California").2).countP isArtifactGet = 1 ∧
    ((post_query_and_download directWorld "06" "California").2).countP isFileWrite =
      (if directWorld.artifactStatus == 200 then 1 else 0) ∧
    (directWorld.artifactStatus = 200 →
      Event.fileWrite (OUTDIR ++ "/" ++ "California" ++ "-dui-data.xlsx") ∈
        (post_query_and_download directWorld "06" "California").2) ∧
    (¬ directWorld.artifactStatus = 200 →
      Event.logDownloadFailed directWorld.artifactStatus ∈
        (post_query_and_download directWorld "06" "California").2) :=
  artifact_all_or_nothing directWorld "06" "California" "/files/files/ca.xlsx" rfl (by decide)

lemma dictInsert_of_fresh (d : List (String × String)) (k v : String)
    (h : ∀ p ∈ d, p.1 ≠ k) : dictInsert d k v = d ++ [(k, v)] := by
  have hna : ¬ (d.any (fun p => p.1 == k) = true) := by
    simp only [List.any_eq_true]
    rintro ⟨p, hp, he⟩
    exact h p hp (by simpa using he)
  unfold dictInsert
  rw [if_neg hna]

lemma foldl_inputStep_eq (elems : List InputElem) :
    ∀ acc : List (String × String),
      (∀ p ∈ acc, ∀ q ∈ namedPairs elems, p.1 ≠ q.1) →
      ((namedPairs elems).map Prod.fst).Nodup →
      elems.foldl inputStep acc = acc ++ namedPairs elems := by
  induction elems with
  | nil =>
    intro acc _ _
    simp [namedPairs]
  | cons i rest ih =>
    intro acc hacc hd
    cases hn : i.name with
    | none =>
      have hnp : namedPairs (i :: rest) = namedPairs rest := by
        simp [namedPairs, hn]
      have hacc2 : ∀ p ∈ acc, ∀ q ∈ namedPairs rest, p.1 ≠ q.1 := by
        intro p hp q hq
        exact hacc p hp q (by rw [hnp]; exact hq)
      have hd2 : ((namedPairs rest).map Prod.fst).Nodup := by
        rw [hnp] at hd
        exact hd
      have hstep : inputStep acc i = acc := by
        simp [inputStep, hn]
      rw [List.foldl_cons, hstep, ih acc hacc2 hd2, hnp]
    | some n =>
      by_cases he : n = ""
      · have hnp : namedPairs (i :: rest) = namedPairs rest := by
          simp [namedPairs, hn, he]
        have hacc2 : ∀ p ∈ acc, ∀ q ∈ namedPairs rest, p.1 ≠ q.1 := by
          intro p hp q hq
          exact hacc p hp q (by rw [hnp]; exact hq)
        have hd2 : ((namedPairs rest).map Prod.fst).Nodup := by
          rw [hnp] at hd
          exact hd
        have hstep : inputStep acc i = acc := by
          simp [inputStep, hn, he]
        rw [List.foldl_cons, hstep, ih acc hacc2 hd2, hnp]
      have hnp : namedPairs (i :: rest) = (n, i.value.getD "") :: namedPairs rest := by
        simp [namedPairs, hn, he]
      have hmem : (n, i.value.getD "") ∈ namedPairs (i :: rest) := by
        rw [hnp]
        exact List.mem_cons_self _ _
      have hfresh : ∀ p ∈ acc, p.1 ≠ n := fun p hp => hacc p hp _ hmem
      have hstep : inputStep acc i = acc ++ [(n, i.value.getD "")] := by
        simp only [inputStep, hn]
        rw [if_neg (by simp [he])]
        exact dictInsert_of_fresh acc n _ hfresh
      rw [hnp] at hd
      simp only [List.map_cons, List.nodup_cons] at hd
      have hacc2 : ∀ p ∈ acc ++ [(n, i.value.getD "")],
          ∀ q ∈ namedPairs rest, p.1 ≠ q.1 := by
        intro p hp q hq
        rcases List.mem_append.mp hp with h1 | h1
        · exact hacc p h1 q (by rw [hnp]; exact List.mem_cons_of_mem _ hq)
        · have hp1 : p = (n, i.value.getD "") := by
            simpa using h1
          rw [hp1]
          intro hcon
          apply hd.1
          have hq1 : q.1 ∈ (namedPairs rest).map Prod.fst := List.mem_map_of_mem _ hq
          simpa [← hcon] using hq1
      rw [List.foldl_cons, hstep, ih _ hacc2 hd.2, hnp]
      simp

lemma extractInputs_eq_namedPairs (elems : List InputElem)
    (hd : ((namedPairs elems).map Prod.fst).Nodup) :
    extractInputs elems = namedPairs elems := by
  have h := foldl_inputStep_eq elems [] (by simp) hd
  simpa [extractInputs] using h

lemma formPost_at_most_once (w : World) (sid name : String) :
    ((post_query_and_download w sid name).2).countP isFormPost ≤ 1 := by
  rw [post_query_events]
  by_cases hl : pyTruthy (findLink (formPhase w (challengePhase w sid).1).1.anchors) = true <;>
    by_cases hs : (challengePhase w sid).1.body.progressForm.isSome = true <;>
      simp [hl, hs, List.countP_cons, List.countP_append, isFormPost,
        challengePhase_no_formPost, formPhase_countP_formPost, downloadPhase_no_formPost]

/-- C5: when the response body after challenge handling holds the
ProgressForm, exactly one form POST is issued, to the resolved action,
carrying exactly the named fields with their values verbatim (provided
the names are distinct, as a field map requires); the response body of
that POST becomes the page used for link resolution; and no run ever
issues more than one form POST, so nested forms are never resolved. -/
theorem form_submitted_once_verbatim (w : World) (sid name : String) (f : FormData)
    (hf : (challengePhase w sid).1.body.progressForm = some f)
    (hd : ((namedPairs f.elems).map Prod.fst).Nodup) :
    ((post_query_and_download w sid name).2).countP isFormPost = 1 ∧
    Event.formPost (resolveAction f) (namedPairs f.elems) ∈
      (post_query_and_download w sid name).2 ∧
    (formPhase w (challengePhase w sid).1).1 = w.formResp.body ∧
    ∀ (w2 : World) (sid2 name2 : String),
      ((post_query_and_download w2 sid2 name2).2).countP isFormPost ≤ 1 := by
  have hfp : formPhase w (challengePhase w sid).1 =
      (w.formResp.body, [Event.formPost (resolveAction f) (extractInputs f.elems)]) := by
    unfold formPhase
    rw [hf]
  have hext : extractInputs f.elems = namedPairs f.elems :=
    extractInputs_eq_namedPairs f.elems hd
  refine ⟨?_, ?_, by rw [hfp], fun w2 sid2 name2 => formPost_at_most_once w2 sid2 name2⟩
  · rw [post_query_events]
    by_cases hl : pyTruthy (findLink w.formResp.body.anchors) = true <;>
      simp [hfp, hl, List.countP_cons, List.countP_append, isFormPost,
        challengePhase_no_formPost, downloadPhase_no_formPost]
  · rw [post_query_events]
    by_cases hl : pyTruthy (findLink w.formResp.body.anchors) = true <;>
      simp [hfp, hext, hl, List.mem_cons, List.mem_append]

/-- C5 witness: at `formWorld` the single field of `progressF` is
POSTed exactly once and the form response becomes the page. -/
theorem form_submitted_once_verbatim_witness :
    ((post_query_and_download formWorld "06" "California").2).countP isFormPost = 1 ∧
    Event.formPost (resolveAction progressF) (namedPairs progressF.elems) ∈
      (post_query_and_download formWorld "06" "California").2 ∧
    (formPhase formWorld (challengePhase formWorld "06").1).1 = formWorld.formResp.body ∧
    ∀ (w2 : World) (sid2 name2 : String),
      ((post_query_and_download w2 sid2 name2).2).countP isFormPost ≤ 1 :=
  form_submitted_once_verbatim formWorld "06" "California" progressF rfl (by decide)

lemma mainLoop_append (l1 l2 : List TargetRun) :
    mainLoop (l1 ++ l2) = mainLoop l1 ++ mainLoop l2 := by
  induction l1 with
  | nil => simp [mainLoop]
  | cons t rest ih => simp [mainLoop, ih, List.append_assoc]

/-- C3: the orchestrator processes targets one at a time in input
order — for every position the trace decomposes into the traces of the
earlier targets, that target's own run, and the later targets' runs,
whatever each run's outcome — and every target's run begins with its
processing line and ends with the pacing sleep, a caught per-target
error suppressing neither. -/
theorem orchestrator_isolation (ts : List TargetRun) (i : Nat) (h : i < ts.length) :
    mainLoop ts =
      mainLoop (ts.take i) ++ runOne (ts.get ⟨i, h⟩) ++ mainLoop (ts.drop (i + 1)) ∧
    ∀ t : TargetRun, ∃ evs : List Event,
      runOne t =
        Event.processing (pyShowOpt t.record.id) (targetName t.record) ::
          (evs ++ [Event.sleepSec 1]) := by
  constructor
  · conv_lhs => rw [← List.take_append_drop i ts]
    rw [mainLoop_append, List.drop_eq_getElem_cons h]
    simp [mainLoop, List.append_assoc, List.get_eq_getElem]
  · intro t
    cases he : t.exn with
    | some msg =>
      exact ⟨t.exnEvents ++ [Event.errorCaught (targetName t.record) msg],
        by simp [runOne, he]⟩
    | none =>
      exact ⟨(post_query_and_download t.world (pyShowOpt t.record.id)
          (targetName t.record)).2,
        by simp [runOne, he]⟩

/-- C3 witness: a two-target list whose first target's run raises; the
second target is still processed, after the first target's pacing
sleep. -/
theorem orchestrator_isolation_witness :
    (1 < [errTarget, caTarget].length ∧
      mainLoop [errTarget, caTarget] =
        mainLoop ([errTarget, caTarget].take 1) ++
          runOne ([errTarget, caTarget].get ⟨1, by decide⟩) ++
          mainLoop ([errTarget, caTarget].drop 2)) ∧
    ∀ t : TargetRun, ∃ evs : List Event,
      runOne t =
        Event.processing (pyShowOpt t.record.id) (targetName t.record) ::
          (evs ++ [Event.sleepSec 1]) := by
  have h := orchestrator_isolation [errTarget, caTarget] 1 (by decide)
  exact ⟨⟨by decide, h.1⟩, h.2⟩

lemma post_query_write_count (w : World) (sid name : String) :
    ((post_query_and_download w sid name).2).countP isFileWrite =
      if (post_query_and_download w sid name).1 = true then 1 else 0 := by
  rw [post_query_events, post_query_fst]
  by_cases hl : pyTruthy (findLink (formPhase w (challengePhase w sid).1).1.anchors) = true
  · simp [hl, List.countP_cons, List.countP_append, isFileWrite,
      challengePhase_no_fileWrite, formPhase_no_fileWrite, downloadPhase_countP_fileWrite,
      downloadPhase_fst]
  · simp [hl, List.countP_cons, List.countP_append, isFileWrite,
      challengePhase_no_fileWrite, formPhase_no_fileWrite]

lemma post_query_success_mem_write (w : World) (sid name : String)
    (h : (post_query_and_download w sid name).1 = true) :
    Event.fileWrite (OUTDIR ++ "/" ++ name ++ "-dui-data.xlsx") ∈
      (post_query_and_download w sid name).2 := by
  rw [post_query_fst] at h
  by_cases hl : pyTruthy (findLink (formPhase w (challengePhase w sid).1).1.anchors) = true
  · rw [if_pos hl, downloadPhase_fst] at h
    have h200 : w.artifactStatus = 200 := by simpa using h
    rw [post_query_events]
    simp [hl, List.mem_cons, List.mem_append,
      downloadPhase_mem_fileWrite w name
        ((findLink (formPhase w (challengePhase w sid).1).1.anchors).getD "") h200]
  · rw [if_neg hl] at h
    simp at h

/-- C9: a successfully completed target writes exactly one output
file, whose path is the output directory, then the display name with
every path separator `/` replaced by `-`, then the fixed suffix
`-dui-data` and extension `.xlsx`. -/
theorem output_file_naming (t : TargetRun)
    (hexn : t.exn = none)
    (hok : (post_query_and_download t.world (pyShowOpt t.record.id)
      (targetName t.record)).1 = true) :
    (runOne t).countP isFileWrite = 1 ∧
    targetName t.record = pyReplace (t.record.stateName.getD "unknown") "/" "-" ∧
    Event.fileWrite (OUTDIR ++ "/" ++ targetName t.record ++ "-dui-data.xlsx") ∈
      runOne t := by
  refine ⟨?_, rfl, ?_⟩
  · simp [runOne, hexn, List.countP_cons, List.countP_append, isFileWrite,
      post_query_write_count, hok]
  · have hm := post_query_success_mem_write t.world (pyShowOpt t.record.id)
      (targetName t.record) hok
    simp [runOne, hexn, List.mem_cons, List.mem_append, hm]

/-- C9 witness: the California target writes exactly one file, at
`scraped/California-dui-data.xlsx`. -/
theorem output_file_naming_witness :
    ((runOne caTarget).countP isFileWrite = 1 ∧
      targetName caTarget.record =
        pyReplace (caTarget.record.stateName.getD "unknown") "/" "-" ∧
      Event.fileWrite (OUTDIR ++ "/" ++ targetName caTarget.record ++ "-dui-data.xlsx") ∈
        runOne caTarget) ∧
    OUTDIR ++ "/" ++ targetName caTarget.record ++ "-dui-data.xlsx" =
      "scraped/California-dui-data.xlsx" :=
  ⟨output_file_naming caTarget rfl rfl, rfl⟩

end NhtsaFirst
